import Mathlib

/-!
Verification development for the prodidows-backend repository.

The repository contains several near-duplicate drafts of a socket.io
multiplayer backend.  This file gives a shallow embedding of the parts
relevant to the frozen claims:

- the main socket.io server (src/server.js): a global session table
  keyed by socket id, joinWorld / updatePlayer / disconnect handlers,
  and the getWorldsWithPopulation snapshot;
- the per-world connection manager (src/WorldSystem.js): a map keyed
  by user id with a capacity check against a separately incremented
  playerCount, plus the joinGameWorld message handler;
- the world serializer of the draft in src/unnamed/part_002
  (World.toSimplifiedObject), which reports fullness as a 0-100
  percentage.

JavaScript objects and Maps are modelled as association lists with
replace-in-place / append-at-end update semantics; socket.io rooms are
modelled as a set of (socketId, worldId) pairs that only ever grows
while the socket is connected (socket.join with no leave); JS number
division is modelled exactly over the rationals.
-/

namespace Prodidows

/-! ### src/server.js : data model -/

/-- A session record as stored in the global JS object
players[socket.id] = { socketId, userID, world, x, y, appearance }
(src/server.js lines 78-85).  The appearance blob is opaque to the
server and is modelled by a Nat token. -/
structure Player where
  socketId : Nat
  userID : String
  world : Nat
  x : Int
  y : Int
  appearance : Nat
deriving DecidableEq

/-- One entry of the static world configuration array of src/server.js
lines 25-30. -/
structure WorldConfig where
  id : Nat
  name : String
  maxPopulation : Nat
deriving DecidableEq

/-- The static world list of src/server.js (four worlds, capacity 100
each). -/
def worlds : List WorldConfig :=
  [⟨1, ("Farflight"), 100⟩,
   ⟨2, ("Pirate Bay"), 100⟩,
   ⟨3, ("Crystal Caverns"), 100⟩,
   ⟨4, ("Shiverchill"), 100⟩]

/-- The players table: a JS object keyed by socket id.  Keys are the
actual socket ids; the stored record carries its own socketId field,
which updatePlayer can overwrite independently of the key. -/
abbrev PlayersTable := List (Nat × Player)

/-- Lookup players[k] (first entry with the given key). -/
def getEntry : PlayersTable → Nat → Option Player
  | [], _ => none
  | kv :: t, k => if kv.1 == k then some kv.2 else getEntry t k

/-- Assignment players[k] = p: replace in place when the key exists,
append at the end otherwise (JS object key semantics). -/
def setEntry : PlayersTable → Nat → Player → PlayersTable
  | [], k, p => [(k, p)]
  | kv :: t, k, p => if kv.1 == k then (k, p) :: t else kv :: setEntry t k p

/-- delete players[k]. -/
def delEntry (ps : PlayersTable) (k : Nat) : PlayersTable :=
  ps.filter (fun kv => kv.1 != k)

/-- Object.values(players). -/
def tableValues (ps : PlayersTable) : List Player :=
  ps.map (fun kv => kv.2)

/-- Object.values(players).filter(p => p.world === wid).length — the
live membership count of a world, as computed by
getWorldsWithPopulation (src/server.js line 40). -/
def worldPopulation (ps : PlayersTable) (wid : Nat) : Nat :=
  ((tableValues ps).filter (fun p => p.world == wid)).length

/-- One element of the array returned by getWorldsWithPopulation:
the world config spread together with population and full
(src/server.js lines 41-45).  JS float division is modelled exactly
over the rationals. -/
structure WorldInfo where
  id : Nat
  name : String
  maxPopulation : Nat
  population : Nat
  full : ℚ
deriving DecidableEq

/-- The per-world record built by the map callback of
getWorldsWithPopulation: the world config spread together with the
recomputed population and full = count / maxPopulation. -/
def snapEntry (ps : PlayersTable) (w : WorldConfig) : WorldInfo :=
  { id := w.id, name := w.name, maxPopulation := w.maxPopulation,
    population := worldPopulation ps w.id,
    full := (worldPopulation ps w.id : ℚ) / (w.maxPopulation : ℚ) }

/-- getWorldsWithPopulation (src/server.js lines 38-47): recomputes
each world's population from the players table and derives
full = count / maxPopulation. -/
def getWorldsWithPopulation (ps : PlayersTable) : List WorldInfo :=
  worlds.map (snapEntry ps)

/-- The socket.io room table: the set of (socketId, worldId) pairs such
that the socket has executed socket.join of room world_worldId.
socket.io rooms are sets; joining twice is a no-op, and nothing in the
code ever leaves a room before disconnect. -/
abbrev RoomsTable := List (Nat × Nat)

/-- socket.join of room world_wid: add the pair unless already present. -/
def socketJoin : RoomsTable → Nat → Nat → RoomsTable
  | [], sid, wid => [(sid, wid)]
  | r :: t, sid, wid =>
      if r.1 == sid && r.2 == wid then r :: t else r :: socketJoin t sid wid

/-- Is socket sid currently inside socket.io room world_wid? -/
def inRoom (rooms : RoomsTable) (sid wid : Nat) : Bool :=
  rooms.any (fun r => r.1 == sid && r.2 == wid)

/-- The mutable state of the src/server.js process: the players table
and the socket.io room membership. -/
structure ServerState where
  players : PlayersTable
  rooms : RoomsTable
deriving DecidableEq

/-- The state at server start: no sessions, no joined rooms. -/
def initState : ServerState := ⟨[], []⟩

/-- Events emitted by the handlers.  Events addressed through
socket.to(room).emit carry the room and the excluded sender;
socket.emit events carry their single target; io.emit events go to
every connected socket. -/
inductive Event where
  | errorMessage (target : Nat) (text : String)
  | playerList (target : Nat) (players : List Player)
  | playerJoined (room : Nat) (exclude : Nat) (p : Player)
  | playerUpdate (room : Nat) (exclude : Nat) (p : Player)
  | playerLeft (room : Nat) (exclude : Nat) (userID : String) (socketId : Nat)
  | worldListUpdate (snapshot : List WorldInfo)
deriving DecidableEq

/-- JS truthiness test for the guard `if (!userID)` — an absent value
and the empty string are both falsy. -/
def strFalsy : Option String → Bool
  | none => true
  | some s => s.isEmpty

/-- The joinWorld payload {worldId, userID, appearance, x, y}.  userID,
appearance, x and y may be absent; worldId is modelled as always
present (the handlers never test it). -/
structure JoinData where
  worldId : Nat
  userID : Option String
  appearance : Option Nat
  x : Option Int
  y : Option Int
deriving DecidableEq

/-- The record stored on join: x || 0, y || 0, appearance || {}
(src/server.js lines 78-85). -/
def joinNewPlayer (sid : Nat) (d : JoinData) : Player :=
  { socketId := sid, userID := d.userID.getD (""), world := d.worldId,
    x := d.x.getD 0, y := d.y.getD 0, appearance := d.appearance.getD 0 }

/-- othersInWorld (src/server.js lines 88-90): the values of the table
after insertion, filtered to the joined world and excluding the
joiner's socket id. -/
def joinOthers (st : ServerState) (sid : Nat) (d : JoinData) : List Player :=
  (tableValues (setEntry st.players sid (joinNewPlayer sid d))).filter
    (fun q => q.world == d.worldId && q.socketId != sid)

/-- The joinWorld handler (src/server.js lines 65-106).  A falsy userID
is rejected before any state change, with only a direct error_message
to the requesting socket; otherwise the socket joins the room, the
session is stored, the joiner gets the playerList, the room gets
playerJoined, and everyone gets a fresh population snapshot.  No
capacity check and no duplicate-identity check occur anywhere in the
handler. -/
def joinWorld (st : ServerState) (sid : Nat) (d : JoinData) :
    ServerState × List Event :=
  if strFalsy d.userID then
    (st, [Event.errorMessage sid ("Login required for multiplayer")])
  else
    let p := joinNewPlayer sid d
    let players' := setEntry st.players sid p
    (⟨players', socketJoin st.rooms sid d.worldId⟩,
      [Event.playerList sid (joinOthers st sid d),
       Event.playerJoined d.worldId sid p,
       Event.worldListUpdate (getWorldsWithPopulation players')])

/-- The updatePlayer payload: Object.assign merges every own field of
the client-supplied object into the session record, with no field
restriction, so the payload may carry any subset of the record's
fields. -/
structure UpdateData where
  socketId : Option Nat
  userID : Option String
  world : Option Nat
  x : Option Int
  y : Option Int
  appearance : Option Nat
deriving DecidableEq

/-- Object.assign(p, data) over the session record's fields: a field
present in the payload overwrites the stored one. -/
def assignPlayer (p : Player) (d : UpdateData) : Player :=
  { socketId := d.socketId.getD p.socketId,
    userID := d.userID.getD p.userID,
    world := d.world.getD p.world,
    x := d.x.getD p.x,
    y := d.y.getD p.y,
    appearance := d.appearance.getD p.appearance }

/-- The updatePlayer handler (src/server.js lines 111-118): if the
socket has a session, merge the payload in place (the table key is the
socket id and does not change) and broadcast the merged record to room
world_{p.world} — p.world read after the merge — excluding the sender.
A socket with no session is silently ignored. -/
def updatePlayer (st : ServerState) (sid : Nat) (d : UpdateData) :
    ServerState × List Event :=
  match getEntry st.players sid with
  | none => (st, [])
  | some p =>
      let p' := assignPlayer p d
      (⟨setEntry st.players sid p', st.rooms⟩,
        [Event.playerUpdate p'.world sid p'])

/-- The disconnect handler (src/server.js lines 123-133): if the socket
has a session, emit playerLeft to its world room (excluding the dead
socket), delete the session, and push a fresh population snapshot; a
socket with no session is a no-op.  socket.io removes the socket from
all rooms on disconnect. -/
def disconnect (st : ServerState) (sid : Nat) : ServerState × List Event :=
  match getEntry st.players sid with
  | none => (st, [])
  | some p =>
      let players' := delEntry st.players sid
      (⟨players', st.rooms.filter (fun r => r.1 != sid)⟩,
        [Event.playerLeft p.world sid p.userID sid,
         Event.worldListUpdate (getWorldsWithPopulation players')])

/-- The client-driven operations on the server state. -/
inductive Op where
  | join (sid : Nat) (d : JoinData)
  | update (sid : Nat) (d : UpdateData)
  | disc (sid : Nat)

/-- Dispatch one operation. -/
def step (st : ServerState) : Op → ServerState × List Event
  | Op.join sid d => joinWorld st sid d
  | Op.update sid d => updatePlayer st sid d
  | Op.disc sid => disconnect st sid

/-- Run a sequence of operations from a state, keeping the final state. -/
def run (st : ServerState) : List Op → ServerState
  | [] => st
  | op :: ops => run (step st op).1 ops

/-- Delivery semantics: which sockets receive an event.  Direct emits
reach their target only; room emits reach every socket inside the
socket.io room except the excluded sender; io.emit reaches everyone. -/
def deliveredTo (rooms : RoomsTable) (e : Event) (target : Nat) : Bool :=
  match e with
  | Event.errorMessage t _ => t == target
  | Event.playerList t _ => t == target
  | Event.playerJoined room ex _ => inRoom rooms target room && target != ex
  | Event.playerUpdate room ex _ => inRoom rooms target room && target != ex
  | Event.playerLeft room ex _ _ => inRoom rooms target room && target != ex
  | Event.worldListUpdate _ => true

/-- Event-kind recognizers. -/
def isPlayerUpdate : Event → Bool
  | Event.playerUpdate _ _ _ => true
  | _ => false

def isPlayerJoined : Event → Bool
  | Event.playerJoined _ _ _ => true
  | _ => false

def isPlayerList : Event → Bool
  | Event.playerList _ _ => true
  | _ => false

def isPlayerLeft : Event → Bool
  | Event.playerLeft _ _ _ _ => true
  | _ => false

def isWorldListUpdate : Event → Bool
  | Event.worldListUpdate _ => true
  | _ => false

/-- How many events of a given kind a batch contains. -/
def countEvents (evs : List Event) (kind : Event → Bool) : Nat :=
  (evs.filter kind).length

/-- How many events of a given kind a given socket receives from a
batch, under the room membership current at emission time. -/
def countDelivered (rooms : RoomsTable) (evs : List Event) (target : Nat)
    (kind : Event → Bool) : Nat :=
  (evs.filter (fun e => kind e && deliveredTo rooms e target)).length

/-- Is socket sid a member of world wid according to the membership
table (the session's world field)? -/
def memberOf (ps : PlayersTable) (wid sid : Nat) : Bool :=
  match getEntry ps sid with
  | some p => p.world == wid
  | none => false

/-! ### src/WorldSystem.js : per-world connection manager -/

/-- An entry of the connectedPlayers Map of WorldSystem:
userId -> { socket, userId, wizardData, currentZone }.  The socket is
modelled by its id. -/
structure WSEntry where
  socketId : Nat
  userId : String
  wizardData : Option Nat
  currentZone : String
deriving DecidableEq

/-- The connectedPlayers Map, keyed by userId (JS Map: set replaces in
place when the key exists, appends otherwise). -/
abbrev WSMap := List (String × WSEntry)

/-- connectedPlayers.get(k). -/
def wsGet : WSMap → String → Option WSEntry
  | [], _ => none
  | kv :: t, k => if kv.1 == k then some kv.2 else wsGet t k

/-- connectedPlayers.set(k, v). -/
def wsSet : WSMap → String → WSEntry → WSMap
  | [], k, v => [(k, v)]
  | kv :: t, k, v => if kv.1 == k then (k, v) :: t else kv :: wsSet t k v

/-- The state a WorldSystem instance mutates: the connectedPlayers Map
and this.world.playerCount, a counter incremented and decremented
separately from the Map. -/
structure WSState where
  connectedPlayers : WSMap
  playerCount : Nat
deriving DecidableEq

/-- this.world.maxPlayers (World.js: always 100). -/
def wsMaxPlayers : Nat := 100

/-- The handshake query parameters read by handleConnection. -/
structure HandshakeQuery where
  userId : Option String
  worldId : Option String
  zone : Option String
  userToken : Option String
deriving DecidableEq

/-- Events emitted on the WorldSystem paths.  Broadcast events carry
the sender's socket id, which WorldSystem.broadcast excludes; the
playerListMsg payload lists (userID, zone, wizardData) triples. -/
inductive WSEvent where
  | connectError (target : Nat)
  | worldFull (target : Nat)
  | worldJoinedConfirmed (target : Nat) (zoneId : String)
  | playerJoinedB (excludeSocket : Nat) (userID : String) (zone : String)
  | playerListMsg (target : Nat) (players : List (String × String × Option Nat))
  | playerLeftB (excludeSocket : Nat) (userID : String)
deriving DecidableEq

/-- zone = socket.handshake.query.zone || "unknown". -/
def zoneOrUnknown : Option String → String
  | none => ("unknown")
  | some s => if s.isEmpty then ("unknown") else s

/-- WorldSystem.handleConnection (src/WorldSystem.js lines 26-51):
reject with connect_error when userId or worldId is missing; reject
with worldFull when playerCount has reached maxPlayers; otherwise
connectedPlayers.set(userId, entry) — silently replacing any live
entry under the same userId — and increment playerCount
unconditionally. -/
def handleConnection (st : WSState) (sid : Nat) (q : HandshakeQuery) :
    WSState × List WSEvent :=
  if strFalsy q.userId || strFalsy q.worldId then
    (st, [WSEvent.connectError sid])
  else if wsMaxPlayers ≤ st.playerCount then
    (st, [WSEvent.worldFull sid])
  else
    let u := q.userId.getD ("")
    (⟨wsSet st.connectedPlayers u
        ⟨sid, u, none, zoneOrUnknown q.zone⟩, st.playerCount + 1⟩, [])

/-- The joinGameWorld message handler (src/WorldSystem.js lines 60-89):
update the caller's entry, confirm to the caller, broadcast
playerJoined to the others, and send the caller a playerList built
from ALL connectedPlayers values — the joiner included. -/
def joinGameWorld (st : WSState) (sid : Nat) (u : String) (wizard : Nat)
    (zone : String) : WSState × List WSEvent :=
  match wsGet st.connectedPlayers u with
  | none => (st, [])
  | some e =>
      let e' := { e with wizardData := some wizard, currentZone := zone }
      let m' := wsSet st.connectedPlayers u e'
      (⟨m', st.playerCount⟩,
        [WSEvent.worldJoinedConfirmed sid zone,
         WSEvent.playerJoinedB sid u zone,
         WSEvent.playerListMsg sid
           ((m'.map (fun kv => kv.2)).map
             (fun p => (p.userId, p.currentZone, p.wizardData)))])

/-! ### src/unnamed/part_002 : World.toSimplifiedObject -/

/-- The meta blob of a World of part_002 (tag and description). -/
structure WorldMeta where
  tag : Option String
  description : Option String
deriving DecidableEq

/-- The fields of a part_002 World instance that toSimplifiedObject
reads. -/
structure PWorld where
  id : String
  name : String
  path : String
  currentPlayers : Nat
  maxPlayers : Nat
  meta : WorldMeta
deriving DecidableEq

/-- The world-list record produced by toSimplifiedObject: full is
Math.floor((currentPlayers / maxPlayers) * 100), a 0-100 percentage,
and the meta description is stripped. -/
structure SimplifiedWorld where
  id : String
  name : String
  path : String
  full : Int
  metaTag : Option String
deriving DecidableEq

/-- World.toSimplifiedObject (src/unnamed/part_002 lines 405-420). -/
def toSimplifiedObject (w : PWorld) : SimplifiedWorld :=
  { id := w.id, name := w.name, path := w.path,
    full := ⌊((w.currentPlayers : ℚ) / (w.maxPlayers : ℚ)) * 100⌋,
    metaTag := w.meta.tag }

/-! ### Concrete fixtures used by witnesses and counterexamples -/

/-- join payload: user a into world 1. -/
def jA : JoinData := ⟨1, some ("a"), none, none, none⟩

/-- join payload: user b into world 1. -/
def jB : JoinData := ⟨1, some ("b"), none, none, none⟩

/-- join payload: user b into world 2. -/
def jB2 : JoinData := ⟨2, some ("b"), none, none, none⟩

/-- join payload: user u into world 1. -/
def jU1 : JoinData := ⟨1, some ("u"), none, none, none⟩

/-- join payload: user u into world 2. -/
def jU2 : JoinData := ⟨2, some ("u"), none, none, none⟩

/-- An empty updatePlayer payload. -/
def dEmpty : UpdateData := ⟨none, none, none, none, none, none⟩

/-- A state with sockets 1 (user a) and 2 (user b) joined into world 1. -/
def stA : ServerState := run initState [Op.join 1 jA, Op.join 2 jB]

/-- n joins of user u into world 1 on distinct sockets 1..n. -/
def fill (n : Nat) : List Op :=
  (List.range n).map (fun i => Op.join (i + 1) jU1)

/-! ### Helper lemmas -/

/-- Looking up a key just assigned returns the assigned record. -/
theorem getEntry_setEntry (ps : PlayersTable) (k : Nat) (p : Player) :
    getEntry (setEntry ps k p) k = some p := by
  induction ps with
  | nil => simp [setEntry, getEntry]
  | cons kv t ih =>
      by_cases h : kv.1 == k
      · simp [setEntry, getEntry, h]
      · simp only [setEntry, getEntry, h, if_false, Bool.false_eq_true]
        exact ih

/-- Deleting a key removes it from lookup. -/
theorem getEntry_delEntry (ps : PlayersTable) (k : Nat) :
    getEntry (delEntry ps k) k = none := by
  induction ps with
  | nil => simp [delEntry, getEntry]
  | cons kv t ih =>
      by_cases h : kv.1 == k
      · simpa [delEntry, List.filter, bne, h] using ih
      · simpa [delEntry, List.filter, bne, h, getEntry] using ih

/-- socket.join only ever adds room memberships. -/
theorem mem_socketJoin (rooms : RoomsTable) (sid wid : Nat)
    (r : Nat × Nat) (h : r ∈ rooms) : r ∈ socketJoin rooms sid wid := by
  induction rooms with
  | nil => cases h
  | cons s t ih =>
      rcases List.mem_cons.mp h with h1 | h2
      · subst h1
        by_cases hc : (r.1 == sid && r.2 == wid)
        · simp [socketJoin, hc]
        · simp [socketJoin, hc]
      · by_cases hc : (s.1 == sid && s.2 == wid)
        · simp [socketJoin, hc, List.mem_cons, h2]
        · simp [socketJoin, hc, List.mem_cons, ih h2]

/-- Map.get after Map.set of the same key. -/
theorem wsGet_wsSet (m : WSMap) (k : String) (v : WSEntry) :
    wsGet (wsSet m k v) k = some v := by
  induction m with
  | nil => simp [wsSet, wsGet]
  | cons kv t ih =>
      by_cases h : kv.1 == k
      · simp [wsSet, wsGet, h]
      · simp only [wsSet, wsGet, h, if_false, Bool.false_eq_true]
        exact ih

/-- Map.set on a key already present does not change the Map's size. -/
theorem length_wsSet (m : WSMap) (k : String) (v e : WSEntry)
    (h : wsGet m k = some e) : (wsSet m k v).length = m.length := by
  induction m with
  | nil => simp [wsGet] at h
  | cons kv t ih =>
      by_cases hk : kv.1 == k
      · simp [wsSet, hk]
      · simp only [wsGet, hk, if_false, Bool.false_eq_true] at h
        simp [wsSet, hk, ih h]

/-- Every world of the static configuration has capacity 100. -/
theorem worlds_capacity (w : WorldConfig) (hw : w ∈ worlds) :
    w.maxPopulation = 100 := by
  have hall : ∀ x ∈ worlds, x.maxPopulation = 100 := by decide
  exact hall w hw

/-! ### More concrete fixtures -/

/-- join payload: user c into world 1. -/
def jC : JoinData := ⟨1, some ("c"), none, none, none⟩

/-- join payload: user a into world 2. -/
def jA2 : JoinData := ⟨2, some ("a"), none, none, none⟩

/-- join payload with a missing userID. -/
def jNone : JoinData := ⟨1, none, none, none, none⟩

/-- The state after user u joins world 1 on socket 1, world 2 on
socket 2 — the same identity on two sockets. -/
def stC8 : ServerState := run initState [Op.join 1 jU1, Op.join 2 jU2]

/-- The state after a joins world 1 on socket 1 and b joins world 1
and then world 2 on socket 2. -/
def stD8 : ServerState := run initState [Op.join 1 jA, Op.join 2 jB, Op.join 2 jB2]

/-- The state after a joins world 1, b joins world 2, and b rewrites
its stored world field to 1 through updatePlayer. -/
def stC2 : ServerState :=
  run initState [Op.join 1 jA, Op.join 2 jB2,
    Op.update 2 ⟨none, none, some 1, none, none, none⟩]

/-- A WorldSystem state with user A connected on socket 1. -/
def wsA : WSState :=
  (handleConnection ⟨[], 0⟩ 1 ⟨some ("A"), some ("1"), none, none⟩).1

/-- A part_002 Fireplane world holding 3 of 100 players. -/
def pwFire : PWorld :=
  ⟨("world-fireplane-1"), ("Fireplane"), ("/worlds/fireplane"), 3, 100,
   ⟨some ("fire"), some ("A volcanic land")⟩⟩

/-! ### Claim C1 -/

/-- Claim C1: every population snapshot pushed by a worldListUpdate
event is exactly the per-world recomputation from the post-operation
players table: for every configured World its entry is present, with
population equal to the number of live member Sessions of that World
at the moment of the snapshot.  The count is derived from the
membership table on every push, for every join, update or disconnect
operation, so it can never drift from it. -/
theorem claim1_snapshot_population_no_drift :
    ∀ (st : ServerState) (op : Op) (ws : List WorldInfo),
      Event.worldListUpdate ws ∈ (step st op).2 →
      ws = worlds.map (snapEntry (step st op).1.players) ∧
      ∀ w ∈ worlds,
        snapEntry (step st op).1.players w ∈ ws ∧
        (snapEntry (step st op).1.players w).population
          = worldPopulation (step st op).1.players w.id := by
  intro st op ws hmem
  have hmain : ws = worlds.map (snapEntry (step st op).1.players) := by
    cases op with
    | join sid d =>
        cases hf : strFalsy d.userID with
        | true => simp [step, joinWorld, hf] at hmem
        | false =>
            simp [step, joinWorld, hf, getWorldsWithPopulation] at hmem ⊢
            exact hmem
    | update sid d =>
        cases h : getEntry st.players sid with
        | none => simp [step, updatePlayer, h] at hmem
        | some p => simp [step, updatePlayer, h] at hmem
    | disc sid =>
        cases h : getEntry st.players sid with
        | none => simp [step, disconnect, h] at hmem
        | some p =>
            simp [step, disconnect, h, getWorldsWithPopulation] at hmem ⊢
            exact hmem
  refine ⟨hmain, fun w hw => ⟨?_, rfl⟩⟩
  rw [hmain]
  exact List.mem_map_of_mem _ hw

/-- Claim C1 witness: the snapshot pushed by the join of user u into
world 1 on socket 1, from the empty initial state, matches the
membership count of world 1 after the join. -/
theorem claim1_snapshot_population_no_drift_witness :
    worlds.map (snapEntry (step initState (Op.join 1 jU1)).1.players)
      = worlds.map (snapEntry (step initState (Op.join 1 jU1)).1.players) ∧
    snapEntry (step initState (Op.join 1 jU1)).1.players ⟨1, ("Farflight"), 100⟩
      ∈ worlds.map (snapEntry (step initState (Op.join 1 jU1)).1.players) ∧
    (snapEntry (step initState (Op.join 1 jU1)).1.players ⟨1, ("Farflight"), 100⟩).population
      = worldPopulation (step initState (Op.join 1 jU1)).1.players 1 := by
  have h := claim1_snapshot_population_no_drift initState (Op.join 1 jU1)
      (worlds.map (snapEntry (step initState (Op.join 1 jU1)).1.players))
      (List.Mem.tail _ (List.Mem.tail _ (List.Mem.head _)))
  exact ⟨h.1, (h.2 ⟨1, ("Farflight"), 100⟩ (by decide)).1,
    (h.2 ⟨1, ("Farflight"), 100⟩ (by decide)).2⟩

/-! ### Claim C6 -/

/-- Claim C6: a joinWorld request with a missing (falsy) userID is
dropped before any state is created: the server state is unchanged (no
Session inserted, no socket.io room joined) and no playerJoined,
playerList or population-update broadcast is emitted — the only output
is a direct error_message to the requesting socket. -/
theorem claim6_missing_userID_dropped :
    ∀ (st : ServerState) (sid : Nat) (d : JoinData),
      strFalsy d.userID = true →
      (joinWorld st sid d).1 = st ∧
      (joinWorld st sid d).2
        = [Event.errorMessage sid ("Login required for multiplayer")] ∧
      countEvents (joinWorld st sid d).2 isPlayerJoined = 0 ∧
      countEvents (joinWorld st sid d).2 isPlayerList = 0 ∧
      countEvents (joinWorld st sid d).2 isWorldListUpdate = 0 := by
  intro st sid d hf
  simp [joinWorld, hf, countEvents, isPlayerJoined, isPlayerList,
    isWorldListUpdate]

/-- Claim C6 witness: a join with no userID from the initial state
changes nothing and emits none of the membership broadcasts. -/
theorem claim6_missing_userID_dropped_witness :
    (joinWorld initState 1 jNone).1 = initState ∧
    (joinWorld initState 1 jNone).2
      = [Event.errorMessage 1 ("Login required for multiplayer")] ∧
    countEvents (joinWorld initState 1 jNone).2 isPlayerJoined = 0 ∧
    countEvents (joinWorld initState 1 jNone).2 isPlayerList = 0 ∧
    countEvents (joinWorld initState 1 jNone).2 isWorldListUpdate = 0 :=
  claim6_missing_userID_dropped initState 1 jNone (by decide)

/-! ### Claim C7 -/

/-- Claim C7: the disconnect path is idempotent.  For a socket with a
live Session, the first disconnect produces exactly one playerLeft
broadcast and exactly one population-change notification; invoking the
path a second time for the same Session is a no-op — it changes no
state and emits nothing. -/
theorem claim7_idempotent_disconnect :
    ∀ (st : ServerState) (sid : Nat) (p : Player),
      getEntry st.players sid = some p →
      countEvents (disconnect st sid).2 isPlayerLeft = 1 ∧
      countEvents (disconnect st sid).2 isWorldListUpdate = 1 ∧
      disconnect (disconnect st sid).1 sid = ((disconnect st sid).1, []) := by
  intro st sid p h
  have hst : (disconnect st sid).1
      = ⟨delEntry st.players sid, st.rooms.filter (fun r => r.1 != sid)⟩ := by
    simp [disconnect, h]
  refine ⟨?_, ?_, ?_⟩
  · simp [disconnect, h, countEvents, isPlayerLeft]
  · simp [disconnect, h, countEvents, isWorldListUpdate]
  · rw [hst]
    simp [disconnect, getEntry_delEntry st.players sid]

/-- Claim C7 witness: disconnecting socket 1 from the two-player state
emits one playerLeft and one population update, and a second
disconnect of the same socket is a no-op. -/
theorem claim7_idempotent_disconnect_witness :
    countEvents (disconnect stA 1).2 isPlayerLeft = 1 ∧
    countEvents (disconnect stA 1).2 isWorldListUpdate = 1 ∧
    disconnect (disconnect stA 1).1 1 = ((disconnect stA 1).1, []) :=
  claim7_idempotent_disconnect stA 1 ⟨1, ("a"), 1, 0, 0, 0⟩ (by decide)

/-! ### Claim C10 -/

/-- Claim C10: updatePlayer merges every field of the client payload
into the caller's Session with no field restriction.  With sockets 1
and 2 joined into world 1, a payload carrying socketId, userID and
world overwrites all three stored fields; the stored world becomes 2
and the playerUpdate broadcast goes to room world_2, while the socket
has only ever joined room world_1 — the stored world field diverges
from the room the connection actually joined. -/
theorem claim10_update_overwrites_identity_fields :
    getEntry (updatePlayer stA 1 ⟨some 9, some ("B"), some 2, none, none, none⟩).1.players 1
      = some ⟨9, ("B"), 2, 0, 0, 0⟩ ∧
    (updatePlayer stA 1 ⟨some 9, some ("B"), some 2, none, none, none⟩).2
      = [Event.playerUpdate 2 1 ⟨9, ("B"), 2, 0, 0, 0⟩] ∧
    memberOf (updatePlayer stA 1 ⟨some 9, some ("B"), some 2, none, none, none⟩).1.players 2 1
      = true ∧
    inRoom (updatePlayer stA 1 ⟨some 9, some ("B"), some 2, none, none, none⟩).1.rooms 1 2
      = false ∧
    inRoom (updatePlayer stA 1 ⟨some 9, some ("B"), some 2, none, none, none⟩).1.rooms 1 1
      = true := by
  decide

/-! ### Claim C2 -/

/-- Claim C2 counterexample: after a joins world 1 on socket 1, b
joins world 2 on socket 2, and b rewrites its stored world field to 1
through updatePlayer, socket 2 is a current member of Room 1 according
to the membership table; yet when socket 1 then performs a successful
update, socket 2 receives zero playerUpdate events, because it never
joined the socket.io room world_1 — refuting the claim that every
current member other than the updater receives exactly one
playerUpdate. -/
theorem claim2_counterexample :
    getEntry stC2.players 1 = some ⟨1, ("a"), 1, 0, 0, 0⟩ ∧
    memberOf stC2.players 1 2 = true ∧
    (step stC2 (Op.update 1 dEmpty)).2
      = [Event.playerUpdate 1 1 ⟨1, ("a"), 1, 0, 0, 0⟩] ∧
    countDelivered stC2.rooms (step stC2 (Op.update 1 dEmpty)).2 2 isPlayerUpdate
      = 0 := by
  decide

/-- Claim C2 amended: after a successful update(sid, delta), exactly
one playerUpdate carrying the merged record (reflecting delta) is
emitted, addressed to the room matching the merged record's world
field and excluding the updater.  Every current member of that Room
whose socket is actually inside that socket.io room — which covers
every member whose world field was set by joinWorld and not rewritten
by a later updatePlayer — receives it exactly once, and the updating
session itself receives none; a member whose stored world diverges
from its joined rooms receives none. -/
theorem claim2_amended_broadcast_exclusion :
    ∀ (st : ServerState) (sid : Nat) (d : UpdateData) (p : Player),
      getEntry st.players sid = some p →
      (updatePlayer st sid d).2
        = [Event.playerUpdate (assignPlayer p d).world sid (assignPlayer p d)] ∧
      (∀ q : Nat,
        memberOf (updatePlayer st sid d).1.players (assignPlayer p d).world q = true →
        inRoom st.rooms q (assignPlayer p d).world = true →
        q ≠ sid →
        countDelivered st.rooms (updatePlayer st sid d).2 q isPlayerUpdate = 1) ∧
      countDelivered st.rooms (updatePlayer st sid d).2 sid isPlayerUpdate = 0 := by
  intro st sid d p h
  refine ⟨?_, ?_, ?_⟩
  · simp [updatePlayer, h]
  · intro q _ hr hq
    simp [updatePlayer, h, countDelivered, deliveredTo, isPlayerUpdate, hr,
      bne_iff_ne, hq]
  · simp [updatePlayer, h, countDelivered, deliveredTo, isPlayerUpdate]

/-- Claim C2 amended witness: in the two-member world-1 state, an
empty update by socket 1 delivers exactly one playerUpdate to member
socket 2 and none to the updater. -/
theorem claim2_amended_broadcast_exclusion_witness :
    (updatePlayer stA 1 dEmpty).2
      = [Event.playerUpdate (assignPlayer ⟨1, ("a"), 1, 0, 0, 0⟩ dEmpty).world 1
          (assignPlayer ⟨1, ("a"), 1, 0, 0, 0⟩ dEmpty)] ∧
    countDelivered stA.rooms (updatePlayer stA 1 dEmpty).2 2 isPlayerUpdate = 1 ∧
    countDelivered stA.rooms (updatePlayer stA 1 dEmpty).2 1 isPlayerUpdate = 0 := by
  have h := claim2_amended_broadcast_exclusion stA 1 dEmpty
      ⟨1, ("a"), 1, 0, 0, 0⟩ (by decide)
  exact ⟨h.1, h.2.1 2 (by decide) (by decide) (by decide), h.2.2⟩

/-! ### Claim C3 -/

/-- Claim C3 counterexample: the joinWorld handler of src/server.js
has no capacity check.  After 100 joins into world 1 the membership
has reached the configured capacity limit (every configured world has
maxPopulation 100); a 101st join is nevertheless not rejected: the
Session is inserted and the population rises to 101, exceeding
capacity — refuting the claim that any further join is rejected with
Full before membership insertion. -/
theorem claim3_counterexample :
    worldPopulation (run initState (fill 100)).players 1 = 100 ∧
    getEntry (run initState (fill 101)).players 101
      = some ⟨101, ("u"), 1, 0, 0, 0⟩ ∧
    worldPopulation (run initState (fill 101)).players 1 = 101 ∧
    (∀ w ∈ worlds, w.maxPopulation = 100) := by
  decide

/-- Claim C3 amended: only the WorldSystem.handleConnection path
enforces capacity: when playerCount has reached maxPlayers a join with
valid handshake parameters is rejected with worldFull before
membership insertion, leaving the state unchanged and emitting no
broadcast.  The joinWorld handler of src/server.js performs no
capacity check at all: for any state, a join with a truthy userID
inserts the Session regardless of the current population. -/
theorem claim3_amended_capacity :
    (∀ (st : WSState) (sid : Nat) (q : HandshakeQuery),
      strFalsy q.userId = false → strFalsy q.worldId = false →
      wsMaxPlayers ≤ st.playerCount →
      handleConnection st sid q = (st, [WSEvent.worldFull sid])) ∧
    (∀ (st : ServerState) (sid : Nat) (d : JoinData),
      strFalsy d.userID = false →
      getEntry (joinWorld st sid d).1.players sid = some (joinNewPlayer sid d)) := by
  constructor
  · intro st sid q hu hw hfull
    simp [handleConnection, hu, hw, hfull]
  · intro st sid d hf
    simp [joinWorld, hf, getEntry_setEntry]

/-- Claim C3 amended witness: a WorldSystem state whose playerCount is
100 rejects socket 5's valid handshake with worldFull and stays
unchanged; and the server.js join of user c on socket 3 inserts its
Session. -/
theorem claim3_amended_capacity_witness :
    handleConnection ⟨[], 100⟩ 5 ⟨some ("A"), some ("1"), none, none⟩
      = (⟨[], 100⟩, [WSEvent.worldFull 5]) ∧
    getEntry (joinWorld stA 3 jC).1.players 3 = some (joinNewPlayer 3 jC) :=
  ⟨claim3_amended_capacity.1 ⟨[], 100⟩ 5 ⟨some ("A"), some ("1"), none, none⟩
      (by decide) (by decide) (by decide),
   claim3_amended_capacity.2 stA 3 jC (by decide)⟩

/-! ### Claim C4 -/

/-- Claim C4 counterexample: with user A live on socket 1, a second
handleConnection for the same identity A on socket 2 is not rejected —
no DuplicateIdentity (or any) rejection event is emitted — and the
membership table changes: the existing Session is silently replaced by
one bound to socket 2, while playerCount is incremented to 2 even
though the Map still holds a single entry. -/
theorem claim4_counterexample :
    wsGet wsA.connectedPlayers ("A") = some ⟨1, ("A"), none, ("unknown")⟩ ∧
    (handleConnection wsA 2 ⟨some ("A"), some ("1"), none, none⟩).2 = [] ∧
    wsGet (handleConnection wsA 2 ⟨some ("A"), some ("1"), none, none⟩).1.connectedPlayers
        ("A") = some ⟨2, ("A"), none, ("unknown")⟩ ∧
    (handleConnection wsA 2 ⟨some ("A"), some ("1"), none, none⟩).1.connectedPlayers.length
      = 1 ∧
    (handleConnection wsA 2 ⟨some ("A"), some ("1"), none, none⟩).1.playerCount = 2 := by
  decide

/-- Claim C4 amended: a second join under an identity that already has
a live Session is accepted, not rejected: handleConnection emits no
rejection event, silently replaces the existing entry with one bound
to the new socket (the membership size is unchanged), and still
increments playerCount — letting the counter drift above the
membership size.  No DuplicateIdentity rejection exists anywhere in
the code. -/
theorem claim4_amended_duplicate_replaces :
    ∀ (st : WSState) (u : String) (e : WSEntry) (sid : Nat) (q : HandshakeQuery),
      q.userId = some u → strFalsy q.userId = false → strFalsy q.worldId = false →
      st.playerCount < wsMaxPlayers →
      wsGet st.connectedPlayers u = some e →
      (handleConnection st sid q).2 = [] ∧
      wsGet (handleConnection st sid q).1.connectedPlayers u
        = some ⟨sid, u, none, zoneOrUnknown q.zone⟩ ∧
      (handleConnection st sid q).1.connectedPlayers.length
        = st.connectedPlayers.length ∧
      (handleConnection st sid q).1.playerCount = st.playerCount + 1 := by
  intro st u e sid q hqu hu hw hlt he
  have hnot : ¬ (wsMaxPlayers ≤ st.playerCount) := by omega
  have hu' : strFalsy (some u) = false := by
    rw [← hqu]
    exact hu
  refine ⟨?_, ?_, ?_, ?_⟩ <;>
    simp [handleConnection, hu', hw, hnot, hqu, wsGet_wsSet,
      length_wsSet _ _ _ _ he]

/-- Claim C4 amended witness: the duplicate join of live identity A on
socket 2 is accepted, replaces A's entry, keeps the Map size at 1 and
bumps playerCount to 2. -/
theorem claim4_amended_duplicate_replaces_witness :
    (handleConnection wsA 2 ⟨some ("A"), some ("1"), some ("town"), none⟩).2 = [] ∧
    wsGet (handleConnection wsA 2
        ⟨some ("A"), some ("1"), some ("town"), none⟩).1.connectedPlayers ("A")
      = some ⟨2, ("A"), none, zoneOrUnknown (some ("town"))⟩ ∧
    (handleConnection wsA 2
        ⟨some ("A"), some ("1"), some ("town"), none⟩).1.connectedPlayers.length
      = wsA.connectedPlayers.length ∧
    (handleConnection wsA 2 ⟨some ("A"), some ("1"), some ("town"), none⟩).1.playerCount
      = wsA.playerCount + 1 :=
  claim4_amended_duplicate_replaces wsA ("A") ⟨1, ("A"), none, ("unknown")⟩ 2
    ⟨some ("A"), some ("1"), some ("town"), none⟩
    rfl (by decide) (by decide) (by decide) (by decide)

/-! ### Claim C5 -/

/-- Claim C5 counterexample: on the WorldSystem joinGameWorld path,
the playerList snapshot sent to joiner A (socket 1) is built from all
connectedPlayers values and therefore contains A itself — refuting the
claim that on every successful join the snapshot excludes the
joiner. -/
theorem claim5_counterexample :
    (joinGameWorld wsA 1 ("A") 7 ("town")).2 =
      [WSEvent.worldJoinedConfirmed 1 ("town"),
       WSEvent.playerJoinedB 1 ("A") ("town"),
       WSEvent.playerListMsg 1 [(("A"), ("town"), some 7)]] := by
  decide

/-- Claim C5 amended: on the src/server.js joinWorld path the claim
holds — the playerList is sent so that only the joiner receives it and
contains exactly the Room's current members excluding the joiner; on
the WorldSystem joinGameWorld path (and the raw-WebSocket
joinMultiplayerServer of part_002) the playerList instead carries the
full membership including the joiner. -/
theorem claim5_amended_playerlist :
    ∀ (st : ServerState) (sid : Nat) (d : JoinData),
      strFalsy d.userID = false →
      (joinWorld st sid d).2 =
        [Event.playerList sid (joinOthers st sid d),
         Event.playerJoined d.worldId sid (joinNewPlayer sid d),
         Event.worldListUpdate (getWorldsWithPopulation (joinWorld st sid d).1.players)] ∧
      (∀ q : Player, q ∈ joinOthers st sid d ↔
        q ∈ tableValues (joinWorld st sid d).1.players ∧
        q.world = d.worldId ∧ q.socketId ≠ sid) ∧
      (∀ t : Nat,
        deliveredTo st.rooms (Event.playerList sid (joinOthers st sid d)) t = true
          ↔ t = sid) := by
  intro st sid d hf
  refine ⟨?_, ?_, ?_⟩
  · simp [joinWorld, hf]
  · intro q
    have hpost : (joinWorld st sid d).1.players
        = setEntry st.players sid (joinNewPlayer sid d) := by
      simp [joinWorld, hf]
    rw [joinOthers, hpost]
    simp [List.mem_filter, and_assoc]
  · intro t
    simp only [deliveredTo, beq_iff_eq]
    exact eq_comm

/-- Claim C5 amended witness: when user c joins world 1 on socket 3 of
the two-member state, member a (socket 1, world 1) is in the snapshot
sent to the joiner, the joiner itself is not, and the playerList is
delivered to socket 3 only. -/
theorem claim5_amended_playerlist_witness :
    (joinWorld stA 3 jC).2 =
      [Event.playerList 3 (joinOthers stA 3 jC),
       Event.playerJoined jC.worldId 3 (joinNewPlayer 3 jC),
       Event.worldListUpdate (getWorldsWithPopulation (joinWorld stA 3 jC).1.players)] ∧
    ((⟨1, ("a"), 1, 0, 0, 0⟩ : Player) ∈ joinOthers stA 3 jC ↔
      (⟨1, ("a"), 1, 0, 0, 0⟩ : Player) ∈ tableValues (joinWorld stA 3 jC).1.players ∧
      (⟨1, ("a"), 1, 0, 0, 0⟩ : Player).world = jC.worldId ∧
      (⟨1, ("a"), 1, 0, 0, 0⟩ : Player).socketId ≠ 3) ∧
    (deliveredTo stA.rooms (Event.playerList 3 (joinOthers stA 3 jC)) 3 = true ↔ 3 = 3) := by
  have h := claim5_amended_playerlist stA 3 jC (by decide)
  exact ⟨h.1, h.2.1 ⟨1, ("a"), 1, 0, 0, 0⟩, h.2.2 3⟩

/-! ### Claim C8 -/

/-- Claim C8 counterexample: membership exclusivity fails in both
respects.  First, with user u joined into world 1 on socket 1 and
into world 2 on socket 2, the identity u holds live Sessions in two
Rooms' memberships at once.  Second, socket 2 — after joining world 1
and then world 2 — is no longer a member of world 1 in the players
table, yet it still receives world-1 playerUpdate broadcasts, because
socket.join is never paired with a leave. -/
theorem claim8_counterexample :
    (getEntry stC8.players 1 = some ⟨1, ("u"), 1, 0, 0, 0⟩ ∧
     getEntry stC8.players 2 = some ⟨2, ("u"), 2, 0, 0, 0⟩) ∧
    (memberOf stD8.players 1 2 = false ∧
     inRoom stD8.rooms 2 1 = true ∧
     countDelivered stD8.rooms (step stD8 (Op.update 1 dEmpty)).2 2 isPlayerUpdate
       = 1) := by
  decide

/-- Claim C8 amended: exclusivity holds only per socket and only for
the membership table: a socket's Session stores a single world field,
so a join into a second world overwrites it — the socket stops being a
table member of the first world and becomes a table member of the
second.  But the same identity can hold live Sessions in different
Rooms through different sockets, and the socket.io room memberships
only ever grow, so a connection that joins a second world keeps
receiving the first world's broadcasts. -/
theorem claim8_amended_exclusivity :
    ∀ (st : ServerState) (sid : Nat) (d : JoinData) (p : Player),
      getEntry st.players sid = some p →
      strFalsy d.userID = false →
      d.worldId ≠ p.world →
      memberOf (joinWorld st sid d).1.players p.world sid = false ∧
      memberOf (joinWorld st sid d).1.players d.worldId sid = true ∧
      (∀ r ∈ st.rooms, r ∈ (joinWorld st sid d).1.rooms) := by
  intro st sid d p hp hf hne
  refine ⟨?_, ?_, ?_⟩
  · simp [memberOf, joinWorld, hf, getEntry_setEntry, joinNewPlayer, hne]
  · simp [memberOf, joinWorld, hf, getEntry_setEntry, joinNewPlayer]
  · intro r hr
    simp only [joinWorld, hf, Bool.false_eq_true, if_false]
    exact mem_socketJoin _ _ _ _ hr

/-- Claim C8 amended witness: when a (socket 1, world 1) joins world
2, socket 1 stops being a table member of world 1, becomes a table
member of world 2, and stays in the socket.io room of world 1. -/
theorem claim8_amended_exclusivity_witness :
    memberOf (joinWorld stA 1 jA2).1.players 1 1 = false ∧
    memberOf (joinWorld stA 1 jA2).1.players 2 1 = true ∧
    (1, 1) ∈ (joinWorld stA 1 jA2).1.rooms := by
  have h := claim8_amended_exclusivity stA 1 jA2 ⟨1, ("a"), 1, 0, 0, 0⟩
      (by decide) (by decide) (by decide)
  exact ⟨h.1, h.2.1, h.2.2 (1, 1) (by decide)⟩

/-! ### Claim C9 -/

/-- Claim C9 counterexample: the world-list serializer of part_002
reports fullness as a 0-100 percentage, not as population divided by
capacity in [0,1]: a Fireplane world with 3 of 100 players reports
full = 3, which exceeds 1 and differs from 3/100. -/
theorem claim9_counterexample :
    (toSimplifiedObject pwFire).full = 3 ∧
    ¬ ((toSimplifiedObject pwFire).full ≤ 1) ∧
    ¬ (((toSimplifiedObject pwFire).full : ℚ) = (3 : ℚ) / 100) := by
  have hfull : (toSimplifiedObject pwFire).full = 3 := by
    show ⌊(((3 : Nat) : ℚ) / ((100 : Nat) : ℚ)) * 100⌋ = 3
    have h : (((3 : Nat) : ℚ) / ((100 : Nat) : ℚ)) * 100 = 3 := by norm_num
    rw [h]
    simp
  refine ⟨hfull, ?_, ?_⟩
  · rw [hfull]
    norm_num
  · rw [hfull]
    norm_num

/-- Claim C9 amended: the getWorldsWithPopulation snapshot of
src/server.js does report fullness as population divided by capacity;
that value is nonnegative, and is at most 1 exactly when the
population does not exceed the capacity (which no code enforces).  The
toSimplifiedObject serializer of part_002 instead reports
floor of (population / capacity * 100), a percentage lying in [0,100]
when population is at most capacity. -/
theorem claim9_amended_fullness :
    (∀ (ps : PlayersTable) (w : WorldConfig), w ∈ worlds →
      getWorldsWithPopulation ps = worlds.map (snapEntry ps) ∧
      (snapEntry ps w).full
        = ((snapEntry ps w).population : ℚ) / ((snapEntry ps w).maxPopulation : ℚ) ∧
      0 ≤ (snapEntry ps w).full ∧
      ((snapEntry ps w).population ≤ (snapEntry ps w).maxPopulation →
        (snapEntry ps w).full ≤ 1)) ∧
    (∀ w : PWorld, 0 < w.maxPlayers → w.currentPlayers ≤ w.maxPlayers →
      0 ≤ (toSimplifiedObject w).full ∧ (toSimplifiedObject w).full ≤ 100) := by
  constructor
  · intro ps w hw
    have hcap := worlds_capacity w hw
    refine ⟨rfl, rfl, ?_, ?_⟩
    · apply div_nonneg <;> positivity
    · intro hle
      apply (div_le_one (by rw [hcap]; norm_num)).mpr
      exact_mod_cast hle
  · intro w hm hc
    constructor
    · apply Int.floor_nonneg.mpr
      positivity
    · have hm' : (0 : ℚ) < (w.maxPlayers : ℚ) := by exact_mod_cast hm
      have h1 : ((w.currentPlayers : ℚ) / (w.maxPlayers : ℚ)) ≤ 1 :=
        (div_le_one hm').mpr (by exact_mod_cast hc)
      have hx : ((w.currentPlayers : ℚ) / (w.maxPlayers : ℚ)) * 100 ≤ 100 := by
        calc ((w.currentPlayers : ℚ) / (w.maxPlayers : ℚ)) * 100 ≤ 1 * 100 := by
              apply mul_le_mul_of_nonneg_right h1
              norm_num
          _ = 100 := by norm_num
      have := Int.floor_le_floor hx
      simpa using this

/-- Claim C9 amended witness: for the empty players table and world 1,
the snapshot entry's fullness is its population over its capacity and
lies in [0,1]; for the 3-of-100 Fireplane world the percentage lies in
[0,100]. -/
theorem claim9_amended_fullness_witness :
    getWorldsWithPopulation [] = worlds.map (snapEntry []) ∧
    (snapEntry [] ⟨1, ("Farflight"), 100⟩).full
      = ((snapEntry [] ⟨1, ("Farflight"), 100⟩).population : ℚ)
        / ((snapEntry [] ⟨1, ("Farflight"), 100⟩).maxPopulation : ℚ) ∧
    0 ≤ (snapEntry [] ⟨1, ("Farflight"), 100⟩).full ∧
    0 ≤ (toSimplifiedObject pwFire).full ∧
    (toSimplifiedObject pwFire).full ≤ 100 := by
  have h1 := claim9_amended_fullness.1 [] ⟨1, ("Farflight"), 100⟩ (by decide)
  have h2 := claim9_amended_fullness.2 pwFire (by decide) (by decide)
  exact ⟨h1.1, h1.2.1, h1.2.2.1, h2.1, h2.2⟩

end Prodidows
